import Mathlib

/-!
Shallow embedding of `boost/threadpool/task_adaptors.hpp` (eProsima/boost_threadpool):
the three task adaptor classes `task_functor`, `priority_task_functor` and
`looped_task_functor`.

Modelling choices, shared by every definition below:

* A `boost::function<Signature(void)>` is modelled as `Option (σ → Except E (R × σ))`:
  `none` is the empty function object (`boost::function::empty() == true`), `some f`
  a held callable.  A callable is given an explicit internal state `σ` (threaded
  through calls, so that stateful callables such as "return true N times then false"
  are expressible) and may raise a failure of type `E` (`Except.error`), modelling a
  C++ exception thrown by the wrapped callable.  Pure, non-throwing callables simply
  never produce `Except.error` (for instance with `E := Empty`).
* `unsigned int` values (`priority`, `interval`, `m_break_s`, `m_break_ns`) are
  modelled as `Nat`.  The only arithmetic performed on them by the source is
  `interval / 1000` and `(interval - m_break_s * 1000) * 1000 * 1000`, whose
  intermediate values are bounded by the input (the product is at most
  999 000 000 < 2^32), so on every value representable as a C `unsigned int`
  the `Nat` computation coincides with the C computation and no `% 2^32` is needed.
* The observable actions of `looped_task_functor::operator()` — invoking the
  wrapped callable, sleeping for the configured break (`boost::thread::sleep` of
  `m_break_s` seconds plus `m_break_ns` nanoseconds past the current time) and
  yielding the processor (`boost::thread::yield`) — are recorded in an event trace
  (`LEvent`).  The `while` loop need not terminate, so the loop is run on explicit
  fuel: a result of `none` means the loop was still running after `fuel` calls to
  the callable (in particular, `invoke` returning `none` for every fuel is the
  embedding of a non-terminating invocation).
* `Signature operator()(void) const { if (!empty) return f(); }` flows off the end
  of a value-returning function when the held function object is empty: for a
  non-void `Signature` no return value is produced (in C++ this is undefined
  behaviour; for `Signature = void` it is a plain no-op).  The invocation result is
  therefore `Option R`: `some r` when the callable ran and returned `r`, `none`
  when control flowed off the end without producing a value.
* The call operators are declared `const` and no data member is `mutable`, so an
  invocation cannot modify the functor object; `invokeSession` makes that explicit
  by pairing the (unchanged) functor with the invocation result.
* The `while (this->task_function())` condition converts the result of the
  callable to `bool`; that contextual conversion is the explicit parameter `toBool`.
* The cross-instantiation converting constructors and assignment operators are
  guarded in C++ by `disable_if_c<is_same<U, Signature>>`; the embedding takes
  independent type parameters for source and target and does not need the guard.
-/

namespace Threadpool

/-- Observable events of `looped_task_functor::operator()`: a call of the wrapped
callable, a timed sleep of (seconds, nanoseconds) taken from `m_break_s` /
`m_break_ns`, or a processor yield (`boost::thread::yield`). -/
inductive LEvent : Type where
  | call : LEvent
  | sleep : Nat → Nat → LEvent
  | yield : LEvent
deriving DecidableEq

/-- `boost::function<R(void)>` with callable state `σ` and failures `E`:
`none` is the empty function object. -/
def BoostFunction (R σ E : Type) : Type :=
  Option (σ → Except E (R × σ))

/-- `boost::function::empty()`: true iff no target callable is held. -/
def BoostFunction.empty {R σ E : Type} (f : BoostFunction R σ E) : Bool :=
  f.isNone

/-- The default constructor argument `[]() -> Signature { return Signature(); }`:
a held (hence non-empty) no-op callable producing a value-initialized result. -/
def noopFunction (R σ E : Type) [Inhabited R] : BoostFunction R σ E :=
  some (fun s => Except.ok (default, s))

/-- `template<typename Signature> class task_functor`: wraps one
`boost::function<Signature(void)> task_function`. -/
structure task_functor (R σ E : Type) where
  task_function : BoostFunction R σ E

/-- The constructor `task_functor(function<Signature(void)> const &input_function)`
with an explicitly supplied argument (which may itself be an empty function
object). -/
def task_functor.construct {R σ E : Type} (input_function : BoostFunction R σ E) :
    task_functor R σ E :=
  ⟨input_function⟩

/-- The constructor called with no argument: the defaulted argument is the no-op
lambda `[]() -> Signature { return Signature(); }`. -/
def task_functor.constructDefault (R σ E : Type) [Inhabited R] : task_functor R σ E :=
  ⟨noopFunction R σ E⟩

/-- `bool empty() { return this->task_function.empty(); }` -/
def task_functor.empty {R σ E : Type} (t : task_functor R σ E) : Bool :=
  t.task_function.empty

/-- `Signature operator()(void) const { if (!this->task_function.empty()) return
this->task_function(); }`: when non-empty, the callable runs once and its result
(or raised failure) is returned unchanged; when empty, control flows off the end
without producing a value (`none`) and the callable state is untouched. -/
def task_functor.invoke {R σ E : Type} (t : task_functor R σ E) (s : σ) :
    Except E (Option R × σ) :=
  match t.task_function with
  | some f =>
    match f s with
    | Except.error e => Except.error e
    | Except.ok (r, s2) => Except.ok (some r, s2)
  | none => Except.ok (none, s)

/-- `operator()` is `const` and no member is `mutable`: the invocation leaves the
functor object itself unchanged.  The session pairs the (unchanged) functor with
the invocation result. -/
def task_functor.invokeSession {R σ E : Type} (t : task_functor R σ E) (s : σ) :
    task_functor R σ E × Except E (Option R × σ) :=
  (t, t.invoke s)

/-- `template<typename Signature> class priority_task_functor : public
task_functor<Signature>`: adds `unsigned int m_priority`. -/
structure priority_task_functor (R σ E : Type) extends task_functor R σ E where
  m_priority : Nat

/-- The constructor `priority_task_functor(unsigned int const priority,
function<Signature(void)> const &input_function)` with an explicitly supplied
function argument. -/
def priority_task_functor.construct {R σ E : Type} (priority : Nat)
    (input_function : BoostFunction R σ E) : priority_task_functor R σ E :=
  ⟨⟨input_function⟩, priority⟩

/-- The cross-instantiation converting constructor
`priority_task_functor(const priority_task_functor<U> &)`: delegates to the base
default constructor `task_functor<Signature>()` (which installs the no-op lambda)
and copies `m_priority`. -/
def priority_task_functor.convert {R σ E R2 σ2 E2 : Type} [Inhabited R]
    (input_reference : priority_task_functor R2 σ2 E2) : priority_task_functor R σ E :=
  ⟨task_functor.constructDefault R σ E, input_reference.m_priority⟩

/-- The cross-instantiation assignment
`priority_task_functor &operator=(const priority_task_functor<U> &)`:
`this->m_priority = input_reference.m_priority;` and nothing else. -/
def priority_task_functor.assignFrom {R σ E R2 σ2 E2 : Type}
    (t : priority_task_functor R σ E) (input_reference : priority_task_functor R2 σ2 E2) :
    priority_task_functor R σ E :=
  ⟨t.totask_functor, input_reference.m_priority⟩

/-- `priority_task_functor::operator()`: textually the same body as the base class
call operator. -/
def priority_task_functor.invoke {R σ E : Type} (t : priority_task_functor R σ E)
    (s : σ) : Except E (Option R × σ) :=
  match t.task_function with
  | some f =>
    match f s with
    | Except.error e => Except.error e
    | Except.ok (r, s2) => Except.ok (some r, s2)
  | none => Except.ok (none, s)

/-- `bool operator<(const priority_task_functor &rhs) const
{ return m_priority < rhs.m_priority; }` -/
def priority_task_functor.lt {R σ E : Type}
    (t rhs : priority_task_functor R σ E) : Bool :=
  decide (t.m_priority < rhs.m_priority)

/-- `template<typename Signature> class looped_task_functor : public
task_functor<Signature>`: adds `unsigned int m_break_s` and
`unsigned int m_break_ns`. -/
structure looped_task_functor (R σ E : Type) extends task_functor R σ E where
  m_break_s : Nat
  m_break_ns : Nat

/-- The constructor `looped_task_functor(function<Signature(void)> const
&input_function, unsigned int const interval)` (the C++ defaults are the no-op
lambda and `interval = 0`):
`m_break_s = interval / 1000; m_break_ns = (interval - m_break_s * 1000) * 1000 * 1000;` -/
def looped_task_functor.construct {R σ E : Type} (input_function : BoostFunction R σ E)
    (interval : Nat) : looped_task_functor R σ E :=
  ⟨⟨input_function⟩, interval / 1000, (interval - interval / 1000 * 1000) * 1000 * 1000⟩

/-- The cross-instantiation converting constructor
`looped_task_functor(const looped_task_functor<U> &)`: delegates to the base
default constructor `task_functor<Signature>()` (which installs the no-op lambda)
and copies `m_break_s` and `m_break_ns`. -/
def looped_task_functor.convert {R σ E R2 σ2 E2 : Type} [Inhabited R]
    (input_reference : looped_task_functor R2 σ2 E2) : looped_task_functor R σ E :=
  ⟨task_functor.constructDefault R σ E, input_reference.m_break_s,
    input_reference.m_break_ns⟩

/-- The cross-instantiation assignment
`looped_task_functor &operator=(const looped_task_functor<U> &)`: assigns
`m_break_ns` and `m_break_s` and nothing else. -/
def looped_task_functor.assignFrom {R σ E R2 σ2 E2 : Type}
    (t : looped_task_functor R σ E) (input_reference : looped_task_functor R2 σ2 E2) :
    looped_task_functor R σ E :=
  ⟨t.totask_functor, input_reference.m_break_s, input_reference.m_break_ns⟩

/-- The event the loop body performs after a call that returned true:
`if (m_break_s > 0 || m_break_ns > 0) { ... thread::sleep(xt); } else
{ thread::yield(); }`. -/
def interEvent (bs bns : Nat) : LEvent :=
  if bs > 0 || bns > 0 then LEvent.sleep bs bns else LEvent.yield

/-- The `while (this->task_function()) { ... }` loop of
`looped_task_functor::operator()`, run on explicit fuel (an upper bound on the
number of calls of the wrapped callable).  A result of `none` means the loop was
still running after `fuel` calls; `some (tr, out)` means the loop finished with
event trace `tr` and outcome `out`: `Except.ok` with the final callable state
when the callable returned a falsy value, `Except.error` (propagated unchanged)
when a call raised a failure. -/
def looped_loop {R σ E : Type} (f : σ → Except E (R × σ)) (toBool : R → Bool)
    (bs bns : Nat) : Nat → σ → Option (List LEvent × Except E σ)
  | 0, _ => none
  | fuel + 1, s =>
    match f s with
    | Except.error e => some ([LEvent.call], Except.error e)
    | Except.ok (r, s2) =>
      if toBool r then
        match looped_loop f toBool bs bns fuel s2 with
        | none => none
        | some (tr, out) => some (LEvent.call :: interEvent bs bns :: tr, out)
      else
        some ([LEvent.call], Except.ok s2)

/-- `void looped_task_functor::operator()(void) const`: if the held function
object is empty, return at once (no event); otherwise sleep once for the break
duration when it is nonzero, then run the `while` loop.  `none` means the
invocation had not returned after `fuel` calls of the callable. -/
def looped_task_functor.invoke {R σ E : Type} (t : looped_task_functor R σ E)
    (toBool : R → Bool) (fuel : Nat) (s : σ) : Option (List LEvent × Except E σ) :=
  match t.task_function with
  | none => some ([], Except.ok s)
  | some f =>
    let pre : List LEvent :=
      if t.m_break_s > 0 || t.m_break_ns > 0 then
        [LEvent.sleep t.m_break_s t.m_break_ns]
      else []
    match looped_loop f toBool t.m_break_s t.m_break_ns fuel s with
    | none => none
    | some (tr, out) => some (pre ++ tr, out)

/-- A callable (over call-counter state) that returns `true` on its first `N`
calls and `false` on every later call, never raising a failure. -/
def trueNTimes (N : Nat) : Nat → Except Empty (Bool × Nat) :=
  fun k => Except.ok (decide (k < N), k + 1)

/-- The trace of a completed loop that performed `n + 1` calls with event `ev`
between consecutive calls: `call, ev, call, ev, …, call`. -/
def loopTrace (ev : LEvent) : Nat → List LEvent
  | 0 => [LEvent.call]
  | n + 1 => LEvent.call :: ev :: loopTrace ev n

/-- Number of `call` events in a trace. -/
def countCalls : List LEvent → Nat
  | [] => 0
  | LEvent.call :: ts => countCalls ts + 1
  | LEvent.sleep _ _ :: ts => countCalls ts
  | LEvent.yield :: ts => countCalls ts

/-- Whether a trace contains any timed-sleep event. -/
def hasSleep : List LEvent → Bool
  | [] => false
  | LEvent.sleep _ _ :: _ => true
  | LEvent.call :: ts => hasSleep ts
  | LEvent.yield :: ts => hasSleep ts

/-- Every `call`-with-`yield` trace of `n` inter-call yields contains exactly
`n + 1` call events. -/
theorem countCalls_loopTrace_yield (n : Nat) :
    countCalls (loopTrace LEvent.yield n) = n + 1 := by
  induction n with
  | zero => rfl
  | succ n ih => simp [loopTrace, countCalls, ih]

/-- A `call`-with-`yield` trace contains no timed-sleep event. -/
theorem hasSleep_loopTrace_yield (n : Nat) :
    hasSleep (loopTrace LEvent.yield n) = false := by
  induction n with
  | zero => rfl
  | succ n ih => simp [loopTrace, hasSleep, ih]

/-- With a zero break the loop body yields between calls. -/
theorem interEvent_zero : interEvent 0 0 = LEvent.yield := rfl

/-- With a nonzero break the loop body sleeps for (`bs`, `bns`) between calls. -/
theorem interEvent_pos (bs bns : Nat) (h : 0 < bs ∨ 0 < bns) :
    interEvent bs bns = LEvent.sleep bs bns := by
  rcases h with h | h <;> simp [interEvent, h]

/-- C4: the comparison operator of a Priority Task Wrapper returns true exactly
when the priority of the left wrapper is numerically smaller than the priority of
the right wrapper, whatever the two held callables are (empty or not); in
particular, for `p1 < p2` the wrapper built with `p1` compares as less than the
wrapper built with `p2`. -/
theorem spec_C4 (R σ E : Type) (p1 p2 : Nat) (f1 f2 : BoostFunction R σ E) :
    (priority_task_functor.construct p1 f1).lt (priority_task_functor.construct p2 f2) = true
      ↔ p1 < p2 := by
  simp [priority_task_functor.lt, priority_task_functor.construct]

/-- C5: constructing a Looped Task Wrapper from a millisecond interval stores
`m_break_s = interval / 1000` and `m_break_ns = (interval mod 1000) * 1_000_000`
(hence `m_break_ns < 1_000_000_000`); in particular `interval = 1500` stores
`m_break_s = 1` and `m_break_ns = 500_000_000`. -/
theorem spec_C5 (R σ E : Type) (f : BoostFunction R σ E) (interval : Nat) :
    (looped_task_functor.construct f interval).m_break_s = interval / 1000
      ∧ (looped_task_functor.construct f interval).m_break_ns = interval % 1000 * 1000000
      ∧ (looped_task_functor.construct f interval).m_break_ns < 1000000000
      ∧ (looped_task_functor.construct f 1500).m_break_s = 1
      ∧ (looped_task_functor.construct f 1500).m_break_ns = 500000000 := by
  refine ⟨rfl, ?_, ?_, rfl, rfl⟩
  · show (interval - interval / 1000 * 1000) * 1000 * 1000 = interval % 1000 * 1000000
    omega
  · show (interval - interval / 1000 * 1000) * 1000 * 1000 < 1000000000
    omega

/-- C10: cross-result-type assignment writes only the scheduling metadata of the
target (the priority for a Priority Task Wrapper, the two break fields for a
Looped Task Wrapper); the held callable of the target, and hence its `empty()`
value, are untouched. -/
theorem spec_C10 (R σ E R2 σ2 E2 : Type)
    (t : priority_task_functor R σ E) (src : priority_task_functor R2 σ2 E2)
    (u : looped_task_functor R σ E) (lsrc : looped_task_functor R2 σ2 E2) :
    (t.assignFrom src).m_priority = src.m_priority
      ∧ (t.assignFrom src).totask_functor.task_function = t.totask_functor.task_function
      ∧ (t.assignFrom src).totask_functor.empty = t.totask_functor.empty
      ∧ (u.assignFrom lsrc).m_break_s = lsrc.m_break_s
      ∧ (u.assignFrom lsrc).m_break_ns = lsrc.m_break_ns
      ∧ (u.assignFrom lsrc).totask_functor.task_function = u.totask_functor.task_function
      ∧ (u.assignFrom lsrc).totask_functor.empty = u.totask_functor.empty :=
  ⟨rfl, rfl, rfl, rfl, rfl, rfl, rfl⟩

/-- C2 counterexample: a Priority Task Wrapper over result type `Nat` built with
priority 5 and a held callable is non-empty, and converting it to the `Bool`
instantiation yields a wrapper on which `empty()` is NOT true (the conversion
delegates to the default constructor, which installs the no-op lambda), refuting
the claim that the converted wrapper satisfies `empty() == true`. -/
theorem spec_C2_counterexample :
    (priority_task_functor.construct 5
        (some (fun s : Unit => (Except.ok (3, s) : Except Empty (Nat × Unit))))).totask_functor.empty
        = false
      ∧ ¬ ((priority_task_functor.convert
              (priority_task_functor.construct 5
                (some (fun s : Unit => (Except.ok (3, s) : Except Empty (Nat × Unit)))))
              : priority_task_functor Bool Unit Empty).totask_functor.empty = true) :=
  ⟨rfl, by decide⟩

/-- C2 amended: cross-result-type conversion copies the scheduling metadata
exactly (the numeric priority for a Priority Task Wrapper; `break_seconds` and
`break_nanoseconds` for a Looped Task Wrapper) and discards the callable of the
source, but the target holds the default no-op callable installed by the base
default constructor, so `empty()` returns FALSE on the converted wrapper. -/
theorem spec_C2_amended (R σ E R2 σ2 E2 : Type) [Inhabited R]
    (src : priority_task_functor R2 σ2 E2) (lsrc : looped_task_functor R2 σ2 E2) :
    (priority_task_functor.convert src : priority_task_functor R σ E).m_priority
        = src.m_priority
      ∧ (priority_task_functor.convert src
          : priority_task_functor R σ E).totask_functor.task_function = noopFunction R σ E
      ∧ (priority_task_functor.convert src
          : priority_task_functor R σ E).totask_functor.empty = false
      ∧ (looped_task_functor.convert lsrc : looped_task_functor R σ E).m_break_s
          = lsrc.m_break_s
      ∧ (looped_task_functor.convert lsrc : looped_task_functor R σ E).m_break_ns
          = lsrc.m_break_ns
      ∧ (looped_task_functor.convert lsrc
          : looped_task_functor R σ E).totask_functor.task_function = noopFunction R σ E
      ∧ (looped_task_functor.convert lsrc
          : looped_task_functor R σ E).totask_functor.empty = false :=
  ⟨rfl, rfl, rfl, rfl, rfl, rfl, rfl⟩

/-- C3 counterexample: on a default-constructed Basic Task Wrapper (result type
`Nat`), `empty()` is NOT true, because the defaulted constructor argument is the
no-op lambda, a held callable; this refutes the claim that a default-constructed
wrapper satisfies `empty() == true`. -/
theorem spec_C3_counterexample :
    ¬ ((task_functor.constructDefault Nat Unit Empty).empty = true) := by
  decide

/-- C3 amended: `empty()` returns false for a default-constructed wrapper (the
defaulted constructor argument is a held no-op callable), returns false
immediately after construction with a non-empty callable, and is unchanged by any
invocation of the wrapper (the call operator is const: the invocation session
returns the functor unchanged). -/
theorem spec_C3_amended (R σ E : Type) [Inhabited R] (f : σ → Except E (R × σ)) (s : σ) :
    (task_functor.constructDefault R σ E).empty = false
      ∧ (task_functor.construct (some f)).empty = false
      ∧ ((task_functor.construct (some f)).invokeSession s).1.empty
          = (task_functor.construct (some f)).empty :=
  ⟨rfl, rfl, rfl⟩

/-- C6 counterexample: invoking a Basic Task Wrapper over result type `Nat` whose
held function object is empty does not return the default-constructed result
`0`: control flows off the end of the call operator without producing a value,
refuting the claim that the invocation returns a default-constructed result. -/
theorem spec_C6_counterexample :
    ¬ ((task_functor.construct (none : BoostFunction Nat Unit Empty)).invoke ()
        = Except.ok (some 0, ())) := by
  simp [task_functor.invoke, task_functor.construct]

/-- C6 amended: invoking an empty wrapper of any of the three variants invokes no
callable, leaves the callable state unchanged, and performs no sleep and no yield
(the looped variant returns at once with an empty event trace, for every interval
and even with zero fuel, so it never blocks); however, for a non-void result type
no default-constructed result is produced: control flows off the end of the call
operator without a defined return value (for a void result type this is a plain
no-op). -/
theorem spec_C6_amended (R σ E : Type) (s : σ) (p interval fuel : Nat)
    (toBool : R → Bool) :
    (task_functor.construct (none : BoostFunction R σ E)).invoke s = Except.ok (none, s)
      ∧ (priority_task_functor.construct p (none : BoostFunction R σ E)).invoke s
          = Except.ok (none, s)
      ∧ (looped_task_functor.construct (none : BoostFunction R σ E) interval).invoke
          toBool fuel s = some ([], Except.ok s)
      ∧ countCalls ([] : List LEvent) = 0
      ∧ hasSleep ([] : List LEvent) = false :=
  ⟨rfl, rfl, rfl, rfl, rfl⟩

/-- Running the `while` loop with zero break on `trueNTimes (j + d)` from call
counter `j`, with fuel for more than `d` calls, performs `d + 1` calls separated
by yields and ends with counter `j + d + 1`. -/
theorem looped_loop_trueNTimes (d : Nat) : ∀ j fuel, d < fuel →
    looped_loop (trueNTimes (j + d)) id 0 0 fuel j
      = some (loopTrace LEvent.yield d, Except.ok (j + d + 1)) := by
  induction d with
  | zero =>
    intro j fuel h
    match fuel, h with
    | fuel + 1, _ =>
      simp [looped_loop, trueNTimes, loopTrace]
  | succ d ih =>
    intro j fuel h
    match fuel, h with
    | fuel + 1, h =>
      have hd : d < fuel := by omega
      have hrec := ih (j + 1) fuel hd
      have he : j + 1 + d = j + (d + 1) := by omega
      rw [he] at hrec
      have ht : j < j + (d + 1) := by omega
      simp [looped_loop, trueNTimes, ht, hrec, interEvent, loopTrace]

/-- C1: a Looped Task Wrapper with interval 0 holding a callable that returns
true exactly `N` times and then false: `invoke()` calls the callable exactly
`N + 1` times (the final callable state equals the call count `N + 1`), the
event trace contains no timed sleep (only processor yields between consecutive
calls), and the invocation returns right after the callable first returns false
(fuel for `N + 1` calls suffices). -/
theorem spec_C1 (N fuel : Nat) (h : N < fuel) :
    (looped_task_functor.construct (some (trueNTimes N)) 0).invoke id fuel 0
        = some (loopTrace LEvent.yield N, Except.ok (N + 1))
      ∧ countCalls (loopTrace LEvent.yield N) = N + 1
      ∧ hasSleep (loopTrace LEvent.yield N) = false := by
  refine ⟨?_, countCalls_loopTrace_yield N, hasSleep_loopTrace_yield N⟩
  have hl := looped_loop_trueNTimes N 0 fuel h
  simp only [Nat.zero_add] at hl
  simp [looped_task_functor.invoke, looped_task_functor.construct, hl]

/-- C1 witness: the callable that returns true exactly twice, run with fuel 5. -/
theorem spec_C1_witness :
    (looped_task_functor.construct (some (trueNTimes 2)) 0).invoke id 5 0
        = some (loopTrace LEvent.yield 2, Except.ok (2 + 1))
      ∧ countCalls (loopTrace LEvent.yield 2) = 2 + 1
      ∧ hasSleep (loopTrace LEvent.yield 2) = false :=
  spec_C1 2 5 (by decide)

/-- Any finished run of the `while` loop produced a trace of the shape
`call, ev, call, ev, …, call` where `ev` is the sleep-or-yield event selected by
the break fields (a failure raised by a call ends the trace at that call). -/
theorem looped_loop_shape {R σ E : Type} (f : σ → Except E (R × σ)) (toBool : R → Bool)
    (bs bns : Nat) : ∀ fuel s tr out,
    looped_loop f toBool bs bns fuel s = some (tr, out) →
      ∃ n, tr = loopTrace (interEvent bs bns) n := by
  intro fuel
  induction fuel with
  | zero =>
    intro s tr out h
    simp [looped_loop] at h
  | succ fuel ih =>
    intro s tr out h
    rw [looped_loop] at h
    cases hf : f s with
    | error e =>
      rw [hf] at h
      simp at h
      exact ⟨0, by simp [loopTrace, h.1.symm]⟩
    | ok rs =>
      obtain ⟨r, s2⟩ := rs
      rw [hf] at h
      by_cases hb : toBool r
      · simp [hb] at h
        cases hrec : looped_loop f toBool bs bns fuel s2 with
        | none => rw [hrec] at h; simp at h
        | some p =>
          obtain ⟨tr0, out0⟩ := p
          rw [hrec] at h
          simp at h
          obtain ⟨n, hn⟩ := ih s2 tr0 out0 hrec
          exact ⟨n + 1, by simp [loopTrace, h.1.symm, hn]⟩
      · simp [hb] at h
        exact ⟨0, by simp [loopTrace, h.1.symm]⟩

/-- C7: for a non-empty Looped Task Wrapper whose invocation runs to completion,
a nonzero interval means the trace is one timed sleep of
(`interval / 1000` s, `interval mod 1000 * 1_000_000` ns) before the first call
and one such sleep between every two consecutive calls (and nothing else), while
a zero interval means the trace is the calls with exactly one processor yield
between consecutive ones and no timed sleep at all. -/
theorem spec_C7 {R σ E : Type} (f : σ → Except E (R × σ)) (toBool : R → Bool)
    (interval fuel : Nat) (s s2 : σ) (tr : List LEvent)
    (h : (looped_task_functor.construct (some f) interval).invoke toBool fuel s
          = some (tr, Except.ok s2)) :
    (interval ≠ 0 →
        ∃ n, tr = LEvent.sleep (interval / 1000) (interval % 1000 * 1000000)
              :: loopTrace (LEvent.sleep (interval / 1000) (interval % 1000 * 1000000)) n)
      ∧ (interval = 0 →
          (∃ n, tr = loopTrace LEvent.yield n) ∧ hasSleep tr = false) := by
  have hbns : (interval - interval / 1000 * 1000) * 1000 * 1000
      = interval % 1000 * 1000000 := by omega
  simp only [looped_task_functor.invoke, looped_task_functor.construct] at h
  cases hrec : looped_loop f toBool (interval / 1000)
      ((interval - interval / 1000 * 1000) * 1000 * 1000) fuel s with
  | none => rw [hrec] at h; simp at h
  | some p =>
    obtain ⟨tr0, out0⟩ := p
    rw [hrec] at h
    simp at h
    obtain ⟨n, hn⟩ := looped_loop_shape f toBool _ _ fuel s tr0 out0 hrec
    constructor
    · intro hnz
      have hpos : 0 < interval / 1000
          ∨ 0 < (interval - interval / 1000 * 1000) * 1000 * 1000 := by omega
      have hev := interEvent_pos _ _ hpos
      refine ⟨n, ?_⟩
      rw [← h.1, hn, hev, hbns]
      have hc : 0 < interval / 1000 ∨ interval / 1000 * 1000 < interval := by omega
      simp [hc]
    · intro hz
      subst hz
      have hev : interEvent (0 / 1000) ((0 - 0 / 1000 * 1000) * 1000 * 1000)
          = LEvent.yield := rfl
      rw [hev] at hn
      have htr : tr = loopTrace LEvent.yield n := by
        rw [← h.1, hn]
        simp
      exact ⟨⟨n, htr⟩, by rw [htr]; exact hasSleep_loopTrace_yield n⟩

/-- C7 witness: a callable returning false at once, interval 1500 ms: the trace
is one sleep of (1 s, 500_000_000 ns) followed by the single call. -/
theorem spec_C7_witness :
    ∃ n, [LEvent.sleep 1 500000000, LEvent.call]
        = LEvent.sleep (1500 / 1000) (1500 % 1000 * 1000000)
          :: loopTrace (LEvent.sleep (1500 / 1000) (1500 % 1000 * 1000000)) n :=
  (spec_C7 (fun s : Unit => (Except.ok (false, s) : Except Empty (Bool × Unit))) id
      1500 1 () () [LEvent.sleep 1 500000000, LEvent.call] rfl).1 (by decide)

/-- C8: a non-empty Looped Task Wrapper whose callable always returns a truthy
value (and never fails) never returns from `invoke()`: for every fuel bound the
loop is still running (no finite number of calls completes the invocation),
whatever the configured interval. -/
theorem spec_C8 {R σ E : Type} (f : σ → Except E (R × σ)) (toBool : R → Bool)
    (interval : Nat)
    (h : ∀ s, ∃ r s2, f s = Except.ok (r, s2) ∧ toBool r = true) :
    ∀ fuel s, (looped_task_functor.construct (some f) interval).invoke toBool fuel s
      = none := by
  have hloop : ∀ fuel s, looped_loop f toBool (interval / 1000)
      ((interval - interval / 1000 * 1000) * 1000 * 1000) fuel s = none := by
    intro fuel
    induction fuel with
    | zero => intro s; rfl
    | succ fuel ih =>
      intro s
      obtain ⟨r, s2, hf, hr⟩ := h s
      simp [looped_loop, hf, hr, ih s2]
  intro fuel s
  simp [looped_task_functor.invoke, looped_task_functor.construct, hloop fuel s]

/-- C8 witness: the constantly-true callable with interval 0 and fuel 3. -/
theorem spec_C8_witness :
    (looped_task_functor.construct
        (some (fun s : Unit => (Except.ok (true, s) : Except Empty (Bool × Unit)))) 0).invoke
        id 3 () = none :=
  spec_C8 _ id 0 (fun s => ⟨true, s, rfl, rfl⟩) 3 ()

/-- C9: a failure raised by the held callable propagates unchanged through every
wrapper variant: the Basic Task Wrapper invocation returns exactly that failure
and leaves the functor object unchanged (const call operator), the Priority Task
Wrapper invocation returns exactly that failure, and the Looped Task Wrapper
invocation ends with exactly that failure, its trace being the optional pre-break
sleep followed by the failing call — no wrapper catches, wraps or translates the
failure. -/
theorem spec_C9 {R σ E : Type} (f : σ → Except E (R × σ)) (toBool : R → Bool)
    (s : σ) (e : E) (p interval fuel : Nat)
    (h : f s = Except.error e) :
    (task_functor.construct (some f)).invokeSession s
        = (task_functor.construct (some f), Except.error e)
      ∧ (priority_task_functor.construct p (some f)).invoke s = Except.error e
      ∧ (looped_task_functor.construct (some f) interval).invoke toBool (fuel + 1) s
          = some ((if interval / 1000 > 0 ∨ (interval - interval / 1000 * 1000) * 1000 * 1000 > 0
                then [LEvent.sleep (interval / 1000)
                        ((interval - interval / 1000 * 1000) * 1000 * 1000)]
                else []) ++ [LEvent.call], Except.error e) := by
  refine ⟨?_, ?_, ?_⟩
  · simp [task_functor.invokeSession, task_functor.invoke, task_functor.construct, h]
  · simp [priority_task_functor.invoke, priority_task_functor.construct, h]
  · simp [looped_task_functor.invoke, looped_task_functor.construct, looped_loop, h]

/-- C9 witness: a callable that raises failure 7 at once, inside a Priority Task
Wrapper of priority 4: the invocation returns exactly failure 7. -/
theorem spec_C9_witness :
    (priority_task_functor.construct 4
        (some (fun _ : Unit => (Except.error 7 : Except Nat (Bool × Unit))))).invoke ()
      = Except.error 7 :=
  (spec_C9 (fun _ : Unit => (Except.error 7 : Except Nat (Bool × Unit))) id
      () 7 4 0 2 rfl).2.1

end Threadpool
